import Mathlib

/-!
# L2CAP throughput receiver (Day024_Throughput, "L2CAP Channel - Data Incoming", main.c)

A shallow embedding of the program's globals, of `StartScan`, `StackEventHandler`,
`MyTimerIsr` and of the command handling in `main`, followed by theorems about the
byte counter, the channel accept, the credit grant, the throughput computation and
the bounded peripheral list.

Conventions of the embedding:
* C unsigned integers are natural numbers; an operation that can leave the width of
  its destination is reduced explicitly (`% 2 ^ 32` for `uint32`, `% 256` for `uint8`);
* every call into the BLE stack, the UART or the timer block is recorded as an
  `Action`; a handler returns the new globals together with the actions it issued,
  in program order;
* `CyBle_GetState()` is a read of stack-owned state and is an input of the handler;
* enumerations of the BLE component whose declarations live in generated headers are
  inductive types with the enumerators the program names and one catch-all.
-/

namespace Throughput

/-! ## Macros -/

/-- Source: `#define PEER_DEVICE_TX_CREDITS (1000)`. -/
def PEER_DEVICE_TX_CREDITS : Nat := 1000

/-- Source: `#define LOCAL_DEVICE_PSM (73)`. -/
def LOCAL_DEVICE_PSM : Nat := 73

/-- Source: `#define LOCAL_DEVICE_MTU (512)`. -/
def LOCAL_DEVICE_MTU : Nat := 512

/-- Source: `#define LOCAL_DEVICE_MPS (512)`. -/
def LOCAL_DEVICE_MPS : Nat := 512

/-! ## Types of the BLE component used by the program -/

/-- Device address record `CYBLE_GAP_BD_ADDR_T`: six address bytes and the address type. -/
structure CYBLE_GAP_BD_ADDR_T where
  bdAddr : List Nat
  type : Nat
deriving DecidableEq, Repr

/-- Channel parameters `CYBLE_L2CAP_CBFC_CONNECT_PARAM_T`, in the order of the
initialiser of `cbfcLocalParameters`: MTU, MPS, credit. -/
structure CYBLE_L2CAP_CBFC_CONNECT_PARAM_T where
  mtu : Nat
  mps : Nat
  credit : Nat
deriving DecidableEq, Repr

/-- Advertisement event type: the program only compares against `CYBLE_GAPC_SCAN_RSP`. -/
inductive CYBLE_GAPC_ADV_EVENT_T where
  | CYBLE_GAPC_SCAN_RSP
  | otherAdvType (code : Nat)
deriving DecidableEq, Repr

/-- Scan report `CYBLE_GAPC_ADV_REPORT_T`, with the fields the handler reads. -/
structure CYBLE_GAPC_ADV_REPORT_T where
  eventType : CYBLE_GAPC_ADV_EVENT_T
  peerAddrType : Nat
  peerBdAddr : List Nat
deriving DecidableEq, Repr

/-- Connect indication `CYBLE_L2CAP_CBFC_CONN_IND_PARAM_T`, with the fields the handler
reads: local channel id, PSM and the parameters offered by the peer. -/
structure CYBLE_L2CAP_CBFC_CONN_IND_PARAM_T where
  lCid : Nat
  psm : Nat
  connParam : CYBLE_L2CAP_CBFC_CONNECT_PARAM_T
deriving DecidableEq, Repr

/-- Result code of a data-read event: the program only compares against
`CYBLE_L2CAP_RESULT_SUCCESS`. -/
inductive CYBLE_L2CAP_RESULT_PARAM_T where
  | CYBLE_L2CAP_RESULT_SUCCESS
  | otherResult (code : Nat)
deriving DecidableEq, Repr

/-- Data-read parameter `CYBLE_L2CAP_CBFC_RX_PARAM_T`, with the fields the handler reads.
`rxDataLength` is a `uint16` in the component. -/
structure CYBLE_L2CAP_CBFC_RX_PARAM_T where
  result : CYBLE_L2CAP_RESULT_PARAM_T
  rxDataLength : Nat
deriving DecidableEq, Repr

/-- Stack state returned by `CyBle_GetState()`: the program names three enumerators. -/
inductive CYBLE_STATE_T where
  | CYBLE_STATE_DISCONNECTED
  | CYBLE_STATE_SCANNING
  | CYBLE_STATE_CONNECTED
  | otherState (code : Nat)
deriving DecidableEq, Repr

/-- Response code passed to `CyBle_L2capCbfcConnectRsp`. -/
inductive CYBLE_L2CAP_CBFC_RESPONSE_T where
  | CYBLE_L2CAP_CONNECTION_SUCCESSFUL
  | otherResponse (code : Nat)
deriving DecidableEq, Repr

/-- The `(eventCode, eventParam)` pair delivered to `StackEventHandler`: one constructor
per `case` label of the `switch`, carrying the parameter record the case casts
`eventParam` to, and `otherEvent` for every code that reaches `default`. -/
inductive Event where
  | CYBLE_EVT_STACK_ON
  | CYBLE_EVT_GAPC_SCAN_PROGRESS_RESULT (advReport : CYBLE_GAPC_ADV_REPORT_T)
  | CYBLE_EVT_GAPC_SCAN_START_STOP
  | CYBLE_EVT_GAP_DEVICE_CONNECTED
  | CYBLE_EVT_GAP_DEVICE_DISCONNECTED
  | CYBLE_EVT_L2CAP_CBFC_CONN_IND (cbfcRequest : CYBLE_L2CAP_CBFC_CONN_IND_PARAM_T)
  | CYBLE_EVT_L2CAP_CBFC_DATA_READ (cbfcRxParameter : CYBLE_L2CAP_CBFC_RX_PARAM_T)
  | CYBLE_EVT_L2CAP_CBFC_RX_CREDIT_IND
  | otherEvent (eventCode : Nat)
deriving DecidableEq, Repr

/-! ## Calls that leave the program -/

/-- Argument of `UART_UartPutChar`: a literal character code, or the value of one of the
helpers of `common.h`, kept symbolic. -/
inductive UartChar where
  | lit (c : Nat)
  | HexToDecimal (value : Nat) (digit : Nat)
  | HexToAscii (value : Nat) (nibble : Nat)
deriving DecidableEq, Repr

/-- One call into the BLE stack, the UART or the timer block. -/
inductive Action where
  | UART_UartPutString (text : String)
  | UART_UartPutChar (c : UartChar)
  | CyBle_L2capCbfcRegisterPsm (psm : Nat) (creditLwm : Nat)
  | CyBle_GapcStartScan_FAST
  | CyBle_GapcStopScan
  | CyBle_GapcConnectDevice (address : CYBLE_GAP_BD_ADDR_T)
  | CyBle_GapDisconnect_connHandle
  | CyBle_L2capCbfcConnectRsp (lCid : Nat) (response : CYBLE_L2CAP_CBFC_RESPONSE_T)
      (connParam : CYBLE_L2CAP_CBFC_CONNECT_PARAM_T)
  | CyBle_L2capCbfcSendFlowControlCredit (lCid : Nat) (credit : Nat)
  | Timer_Enable
  | Timer_ClearInterrupt_TC
deriving DecidableEq, Repr

/-- The link control primitives: every action except UART output and timer control. -/
def Action.isLinkPrimitive : Action → Bool
  | .UART_UartPutString _ => false
  | .UART_UartPutChar _ => false
  | .Timer_Enable => false
  | .Timer_ClearInterrupt_TC => false
  | _ => true

/-! ## Globals -/

/-- Source: `typedef struct { uint8 count; CYBLE_GAP_BD_ADDR_T peripheralDetail[10]; }`. -/
structure PERIPHERAL_LIST where
  count : Nat
  peripheralDetail : List CYBLE_GAP_BD_ADDR_T
deriving DecidableEq, Repr

/-- The file-scope variables of main.c. -/
structure State where
  totalByteCounter : Nat
  l2capCid : Nat
  peerDevicePsm : Nat
  userStoppedScan : Nat
  peripherals : PERIPHERAL_LIST
  cbfcLocalParameters : CYBLE_L2CAP_CBFC_CONNECT_PARAM_T
  cbfcPeerParameters : CYBLE_L2CAP_CBFC_CONNECT_PARAM_T
deriving DecidableEq, Repr

/-- The globals at program start: the initialisers written in the source, zero for the
variables without one. -/
def State.init : State where
  totalByteCounter := 0
  l2capCid := 0
  peerDevicePsm := 0
  userStoppedScan := 0
  peripherals := ⟨0, List.replicate 10 ⟨List.replicate 6 0, 0⟩⟩
  cbfcLocalParameters := ⟨LOCAL_DEVICE_MTU, LOCAL_DEVICE_MPS, PEER_DEVICE_TX_CREDITS⟩
  cbfcPeerParameters := ⟨0, 0, 0⟩

/-! ## Functions -/

/-- Source: `StartScan`. Clears the list count, starts a fast scan, prints the header. -/
def StartScan (s : State) : State × List Action :=
  ({ s with peripherals := { s.peripherals with count := 0 } },
   [.CyBle_GapcStartScan_FAST, .UART_UartPutString "\n\rList of devices: "])

/-- The UART output of the `for(counter = 6; counter > 0; counter--)` loop of the
scan-progress case: for each byte index `counter - 1` from 5 down to 0, the two
`HexToAscii` characters of the byte and a blank. -/
def printPeerBdAddr (peerBdAddr : List Nat) : List Action :=
  ([6, 5, 4, 3, 2, 1].map fun counter =>
    [Action.UART_UartPutChar (.HexToAscii (peerBdAddr.getD (counter - 1) 0) 1),
     Action.UART_UartPutChar (.HexToAscii (peerBdAddr.getD (counter - 1) 0) 0),
     Action.UART_UartPutChar (.lit 32)]).flatten

/-- Source: `StackEventHandler`. `getState` is the value `CyBle_GetState()` returns
during the call. -/
def StackEventHandler (getState : CYBLE_STATE_T) (s : State) : Event → State × List Action
  | .CYBLE_EVT_STACK_ON =>
    let r := StartScan s
    (r.1,
     [.UART_UartPutString "Scanning. \n\r",
      .UART_UartPutString
        "Press 'C' followed by the device number when you want to connect to that device. \n\r",
      .UART_UartPutString "Press 'D' to disconnect from a connected peer device. \n\r",
      .UART_UartPutString "Press 'S' to refresh the scan list. \n\r",
      .CyBle_L2capCbfcRegisterPsm LOCAL_DEVICE_PSM 0] ++ r.2)
  | .CYBLE_EVT_GAPC_SCAN_PROGRESS_RESULT advReport =>
    if advReport.eventType ≠ .CYBLE_GAPC_SCAN_RSP then
      if s.peripherals.count < 10 then
        let count := (s.peripherals.count + 1) % 256
        ({ s with peripherals :=
            { count := count,
              peripheralDetail := s.peripherals.peripheralDetail.set (count - 1)
                ⟨advReport.peerBdAddr.take 6, advReport.peerAddrType⟩ } },
         [.UART_UartPutString "\n\r",
          .UART_UartPutChar (.HexToDecimal (count - 1) 1),
          .UART_UartPutChar (.HexToDecimal (count - 1) 0),
          .UART_UartPutString ". Address: "] ++ printPeerBdAddr advReport.peerBdAddr)
      else
        (s, [])
    else
      (s, [])
  | .CYBLE_EVT_GAPC_SCAN_START_STOP =>
    if getState = .CYBLE_STATE_DISCONNECTED then
      if s.userStoppedScan = 1 then
        ({ s with userStoppedScan := 0 }, [])
      else
        let r := StartScan s
        (r.1, [.UART_UartPutString "\n\n\rRestarting scan. "] ++ r.2)
    else
      (s, [])
  | .CYBLE_EVT_GAP_DEVICE_CONNECTED =>
    (s, [.UART_UartPutString "\n\rConnected. "])
  | .CYBLE_EVT_GAP_DEVICE_DISCONNECTED =>
    let r := StartScan { s with totalByteCounter := 0 }
    (r.1,
     [.UART_UartPutString "\n\n\rDisconnected. ",
      .UART_UartPutString "Scanning again."] ++ r.2)
  | .CYBLE_EVT_L2CAP_CBFC_CONN_IND cbfcRequest =>
    let s1 : State :=
      { s with
        cbfcPeerParameters :=
          ⟨cbfcRequest.connParam.mtu, cbfcRequest.connParam.mps, cbfcRequest.connParam.credit⟩,
        l2capCid := cbfcRequest.lCid,
        peerDevicePsm := cbfcRequest.psm }
    (s1,
     [.CyBle_L2capCbfcConnectRsp s1.l2capCid .CYBLE_L2CAP_CONNECTION_SUCCESSFUL
        s1.cbfcLocalParameters,
      .UART_UartPutString "\n\rL2CAP connection request received. Request accepted.",
      .UART_UartPutString "\n\rCalculating throughput. Please wait... ",
      .Timer_Enable])
  | .CYBLE_EVT_L2CAP_CBFC_DATA_READ cbfcRxParameter =>
    if cbfcRxParameter.result = .CYBLE_L2CAP_RESULT_SUCCESS then
      ({ s with totalByteCounter :=
          (s.totalByteCounter + cbfcRxParameter.rxDataLength) % 2 ^ 32 }, [])
    else
      (s, [])
  | .CYBLE_EVT_L2CAP_CBFC_RX_CREDIT_IND =>
    (s, [.CyBle_L2capCbfcSendFlowControlCredit s.l2capCid PEER_DEVICE_TX_CREDITS])
  | .otherEvent _ =>
    (s, [])

/-- The locals, globals and calls of one run of `MyTimerIsr`. -/
structure TimerIsrRun where
  cachedTotalByteCounter : Nat
  throughput : Nat
  state : State
  actions : List Action
deriving DecidableEq, Repr

/-- Source: `MyTimerIsr`. Reads the counter once, computes
`(cachedTotalByteCounter >> 7) / 10`, prints three decimal digits of it and clears the
terminal-count interrupt; no global is written. -/
def MyTimerIsr (s : State) : TimerIsrRun :=
  let cachedTotalByteCounter := s.totalByteCounter
  let throughput := (cachedTotalByteCounter >>> 7) / 10
  { cachedTotalByteCounter := cachedTotalByteCounter,
    throughput := throughput,
    state := s,
    actions :=
      [.UART_UartPutString "\n\rThroughput is: ",
       .UART_UartPutChar (.HexToDecimal throughput 2),
       .UART_UartPutChar (.HexToDecimal throughput 1),
       .UART_UartPutChar (.HexToDecimal throughput 0),
       .UART_UartPutString " kbps.",
       .Timer_ClearInterrupt_TC] }

/-- Source: `main`, connect command. `command` is the character read after 'c' or 'C'.
The selection is accepted when it is a digit '0'..'9' (codes 48..57) and
`command - '0' < peripherals.count`; the result is then the index used in
`CyBle_GapcConnectDevice(&peripherals.peripheralDetail[command])`. -/
def main_connectSelection (s : State) (command : Nat) : Option Nat :=
  if 48 ≤ command ∧ command ≤ 57 then
    let command := (command - 48) % 256
    if command < s.peripherals.count then some command else none
  else
    none

/-- Source: `main`, the two statements `CyBle_GapcStopScan(); userStoppedScan = true;`
issued by the connect and the refresh commands before they wait for the scan to stop. -/
def main_stopScan (s : State) : State × List Action :=
  ({ s with userStoppedScan := 1 }, [.CyBle_GapcStopScan])

/-! ## Runs of the program -/

/-- One atomic transition of the globals: an event dispatched to `StackEventHandler`
(with the stack state visible during the call), a firing of `MyTimerIsr`, or one of the
two places where `main` writes a global (`main_stopScan`, and the `StartScan()` call
that ends the refresh command). -/
inductive Step where
  | stack (getState : CYBLE_STATE_T) (e : Event)
  | timer
  | mainStopScan
  | mainStartScan
deriving DecidableEq, Repr

/-- The globals after one transition. -/
def step (s : State) : Step → State
  | .stack getState e => (StackEventHandler getState s e).1
  | .timer => (MyTimerIsr s).state
  | .mainStopScan => (main_stopScan s).1
  | .mainStartScan => (StartScan s).1

/-- The globals after a sequence of transitions, oldest first. -/
def run (s : State) (steps : List Step) : State :=
  steps.foldl step s

/-- Recognises a dispatched `CYBLE_EVT_GAP_DEVICE_DISCONNECTED`. -/
def Step.isDisconnect : Step → Bool
  | .stack _ .CYBLE_EVT_GAP_DEVICE_DISCONNECTED => true
  | _ => false

/-- Recognises a dispatched `CYBLE_EVT_L2CAP_CBFC_CONN_IND`. -/
def Step.isConnInd : Step → Bool
  | .stack _ (.CYBLE_EVT_L2CAP_CBFC_CONN_IND _) => true
  | _ => false

/-- The `rxDataLength` of a dispatched data-read event whose result is
`CYBLE_L2CAP_RESULT_SUCCESS`; zero for every other transition. -/
def Step.successBytes : Step → Nat
  | .stack _ (.CYBLE_EVT_L2CAP_CBFC_DATA_READ ⟨.CYBLE_L2CAP_RESULT_SUCCESS, n⟩) => n
  | _ => 0

/-- Sum of `rxDataLength` over the successful data-read events of a sequence. -/
def successBytes (steps : List Step) : Nat :=
  (steps.map Step.successBytes).sum

/-- The states in which the byte counter has just been reset: program start, or right
after `StackEventHandler` handled a device-disconnected event. -/
def JustReset (s0 : State) : Prop :=
  s0 = State.init ∨
    ∃ g s, s0 = (StackEventHandler g s .CYBLE_EVT_GAP_DEVICE_DISCONNECTED).1

/-- Throughput formula of the specification, evaluated left to right in floor
arithmetic: bytes ÷ 1024, then × 8, then ÷ windowSeconds. -/
def specRateKbps (totalBytes windowSeconds : Nat) : Nat :=
  totalBytes / 1024 * 8 / windowSeconds

/-! ## Sample inputs -/

/-- A successful data read of 512 bytes (the local MTU), dispatched while connected. -/
def fullRead : Step :=
  .stack .CYBLE_STATE_CONNECTED
    (.CYBLE_EVT_L2CAP_CBFC_DATA_READ ⟨.CYBLE_L2CAP_RESULT_SUCCESS, 512⟩)

/-- A connect indication of a peer offering MTU 23, MPS 23 and 10 credits on channel 64
for PSM 73. -/
def peerRequest : CYBLE_L2CAP_CBFC_CONN_IND_PARAM_T :=
  ⟨64, 73, ⟨23, 23, 10⟩⟩

/-- A short session: connect indication, 100 bytes received, a timer tick, 50 bytes
flagged with a failure code, 28 bytes received, a credit indication. -/
def shortSession : List Step :=
  [.stack .CYBLE_STATE_CONNECTED (.CYBLE_EVT_L2CAP_CBFC_CONN_IND peerRequest),
   .stack .CYBLE_STATE_CONNECTED
     (.CYBLE_EVT_L2CAP_CBFC_DATA_READ ⟨.CYBLE_L2CAP_RESULT_SUCCESS, 100⟩),
   .timer,
   .stack .CYBLE_STATE_CONNECTED (.CYBLE_EVT_L2CAP_CBFC_DATA_READ ⟨.otherResult 1, 50⟩),
   .stack .CYBLE_STATE_CONNECTED
     (.CYBLE_EVT_L2CAP_CBFC_DATA_READ ⟨.CYBLE_L2CAP_RESULT_SUCCESS, 28⟩),
   .stack .CYBLE_STATE_CONNECTED .CYBLE_EVT_L2CAP_CBFC_RX_CREDIT_IND]

/-- An advertisement report (not a scan response) from the device with address bytes
1..6 and address type 0. -/
def sampleReport : CYBLE_GAPC_ADV_REPORT_T :=
  ⟨.otherAdvType 0, 0, [1, 2, 3, 4, 5, 6]⟩

/-- Ten advertisement reports dispatched while scanning. -/
def tenReports : List Step :=
  List.replicate 10 (.stack .CYBLE_STATE_SCANNING (.CYBLE_EVT_GAPC_SCAN_PROGRESS_RESULT sampleReport))

/-! ## Lemmas on single transitions and on runs -/

theorem run_nil (s : State) : run s [] = s := rfl

theorem run_cons (s : State) (x : Step) (xs : List Step) :
    run s (x :: xs) = run (step s x) xs := rfl

theorem successBytes_nil : successBytes [] = 0 := rfl

theorem successBytes_cons (x : Step) (xs : List Step) :
    successBytes (x :: xs) = x.successBytes + successBytes xs := by
  simp [successBytes]

/-- No transition writes `cbfcLocalParameters`. -/
theorem step_cbfcLocalParameters (s : State) (x : Step) :
    (step s x).cbfcLocalParameters = s.cbfcLocalParameters := by
  cases x with
  | stack g e =>
    cases e <;> simp only [step, StackEventHandler, StartScan] <;> (try split_ifs) <;> rfl
  | timer => rfl
  | mainStopScan => rfl
  | mainStartScan => rfl

theorem run_cbfcLocalParameters (s : State) (steps : List Step) :
    (run s steps).cbfcLocalParameters = s.cbfcLocalParameters := by
  induction steps generalizing s with
  | nil => rfl
  | cons x xs ih => rw [run_cons, ih, step_cbfcLocalParameters]

/-- The bound on the list count and the size of the array are kept by every transition. -/
theorem step_peripherals (s : State) (x : Step)
    (h : s.peripherals.count ≤ 10 ∧ s.peripherals.peripheralDetail.length = 10) :
    (step s x).peripherals.count ≤ 10 ∧ (step s x).peripherals.peripheralDetail.length = 10 := by
  obtain ⟨hc, hl⟩ := h
  cases x with
  | stack g e =>
    cases e <;> simp only [step, StackEventHandler, StartScan] <;> (try split_ifs) <;>
      simp_all
    omega
  | timer => exact ⟨hc, hl⟩
  | mainStopScan => exact ⟨hc, hl⟩
  | mainStartScan => exact ⟨Nat.zero_le _, hl⟩

theorem run_peripherals (s : State) (steps : List Step)
    (h : s.peripherals.count ≤ 10 ∧ s.peripherals.peripheralDetail.length = 10) :
    (run s steps).peripherals.count ≤ 10 ∧
      (run s steps).peripherals.peripheralDetail.length = 10 := by
  induction steps generalizing s with
  | nil => exact h
  | cons x xs ih => rw [run_cons]; exact ih _ (step_peripherals s x h)

/-- A transition other than a device-disconnected event adds the bytes of a successful
data read to the counter, modulo `2 ^ 32`. -/
theorem step_totalByteCounter (s : State) (x : Step) (hx : x.isDisconnect = false) :
    (step s x).totalByteCounter % 2 ^ 32 = (s.totalByteCounter + x.successBytes) % 2 ^ 32 := by
  cases x with
  | stack g e =>
    cases e with
    | CYBLE_EVT_GAP_DEVICE_DISCONNECTED => simp [Step.isDisconnect] at hx
    | CYBLE_EVT_L2CAP_CBFC_DATA_READ rx =>
      obtain ⟨res, n⟩ := rx
      cases res <;> simp [step, StackEventHandler, Step.successBytes]
    | _ =>
      simp only [step, StackEventHandler, StartScan, Step.successBytes]
      (try split_ifs) <;> simp
  | timer => rfl
  | mainStopScan => rfl
  | mainStartScan => rfl

/-- The counter stays inside the `uint32` range. -/
theorem step_totalByteCounter_lt (s : State) (x : Step) (h : s.totalByteCounter < 2 ^ 32) :
    (step s x).totalByteCounter < 2 ^ 32 := by
  cases x with
  | stack g e =>
    cases e <;> simp only [step, StackEventHandler, StartScan] <;> (try split_ifs) <;>
      first
        | exact h
        | exact Nat.mod_lt _ (by norm_num)
        | norm_num
  | timer => exact h
  | mainStopScan => exact h
  | mainStartScan => exact h

theorem run_totalByteCounter_lt (s : State) (steps : List Step)
    (h : s.totalByteCounter < 2 ^ 32) : (run s steps).totalByteCounter < 2 ^ 32 := by
  induction steps generalizing s with
  | nil => exact h
  | cons x xs ih => rw [run_cons]; exact ih _ (step_totalByteCounter_lt s x h)

theorem run_totalByteCounter_mod (s : State) (steps : List Step)
    (hnd : ∀ x ∈ steps, x.isDisconnect = false) :
    (run s steps).totalByteCounter % 2 ^ 32 =
      (s.totalByteCounter + successBytes steps) % 2 ^ 32 := by
  induction steps generalizing s with
  | nil => simp [run_nil, successBytes_nil]
  | cons x xs ih =>
    have hx : x.isDisconnect = false := hnd x (List.mem_cons_self _ _)
    have hxs : ∀ y ∈ xs, y.isDisconnect = false := fun y hy => hnd y (List.mem_cons_of_mem _ hy)
    rw [run_cons, ih _ hxs, successBytes_cons, Nat.add_mod, step_totalByteCounter s x hx,
      ← Nat.add_mod, Nat.add_assoc]

theorem justReset_totalByteCounter (s0 : State) (h : JustReset s0) : s0.totalByteCounter = 0 := by
  rcases h with h | ⟨g, s, h⟩ <;> subst h <;> rfl

theorem successBytes_replicate (n : Nat) (x : Step) :
    successBytes (List.replicate n x) = n * x.successBytes := by
  induction n with
  | zero => rw [Nat.zero_mul]; rfl
  | succ k ih => rw [List.replicate_succ, successBytes_cons, ih, Nat.succ_mul, Nat.add_comm]

theorem MyTimerIsr_cached (s : State) :
    (MyTimerIsr s).cachedTotalByteCounter = s.totalByteCounter := rfl

theorem MyTimerIsr_throughput (s : State) :
    (MyTimerIsr s).throughput = (s.totalByteCounter >>> 7) / 10 := rfl

/-! ## The byte counter read by the sampler (C1) -/

/-- C1, as stated, fails: starting from the initial state, after 8388608 successful
data reads of 512 bytes each (no disconnect among them) the sum of `rxDataLength` is
`2 ^ 32 = 4294967296`, but the value `MyTimerIsr` reads from the `uint32` counter is 0. -/
theorem timerRead_exact_sum_counterexample :
    JustReset State.init ∧
    (∀ x ∈ List.replicate 8388608 fullRead, x.isDisconnect = false) ∧
    successBytes (List.replicate 8388608 fullRead) = 4294967296 ∧
    (MyTimerIsr (run State.init (List.replicate 8388608 fullRead))).cachedTotalByteCounter = 0 ∧
    (MyTimerIsr (run State.init (List.replicate 8388608 fullRead))).cachedTotalByteCounter ≠
      successBytes (List.replicate 8388608 fullRead) := by
  have hnd : ∀ x ∈ List.replicate 8388608 fullRead, x.isDisconnect = false := by
    intro x hx
    rw [List.eq_of_mem_replicate hx]
    rfl
  have hsum : successBytes (List.replicate 8388608 fullRead) = 4294967296 := by
    rw [successBytes_replicate]
    rfl
  have hlt := run_totalByteCounter_lt State.init (List.replicate 8388608 fullRead)
    (by show 0 < 2 ^ 32; norm_num)
  have hmod := run_totalByteCounter_mod State.init (List.replicate 8388608 fullRead) hnd
  rw [Nat.mod_eq_of_lt hlt, hsum] at hmod
  have hzero : (run State.init (List.replicate 8388608 fullRead)).totalByteCounter = 0 := by
    rw [hmod]
    show (0 + 4294967296) % 2 ^ 32 = 0
    norm_num
  refine ⟨Or.inl rfl, hnd, hsum, ?_, ?_⟩
  · rw [MyTimerIsr_cached, hzero]
  · rw [MyTimerIsr_cached, hzero, hsum]
    norm_num

/-- C1 (amended): after a reset of the byte counter (initial state, or the state left by
a device-disconnected event) and any sequence of transitions without a further
disconnect, timer ticks interleaved anywhere, the value `MyTimerIsr` reads from
`totalByteCounter` is the sum of `rxDataLength` over the successful data-read events so
far reduced modulo `2 ^ 32`, hence the exact sum whenever that sum is below `2 ^ 32`;
data reads with another result contribute zero and a tick leaves the globals as they
are. -/
theorem timerRead_eq_successBytes_mod (s0 : State) (steps : List Step)
    (h0 : JustReset s0) (hnd : ∀ x ∈ steps, x.isDisconnect = false) :
    (MyTimerIsr (run s0 steps)).cachedTotalByteCounter = successBytes steps % 2 ^ 32 ∧
    (successBytes steps < 2 ^ 32 →
      (MyTimerIsr (run s0 steps)).cachedTotalByteCounter = successBytes steps) ∧
    (MyTimerIsr (run s0 steps)).state = run s0 steps := by
  have hz := justReset_totalByteCounter s0 h0
  have hlt := run_totalByteCounter_lt s0 steps (by rw [hz]; norm_num)
  have hmod := run_totalByteCounter_mod s0 steps hnd
  rw [Nat.mod_eq_of_lt hlt, hz, Nat.zero_add] at hmod
  refine ⟨by rw [MyTimerIsr_cached, hmod], fun hs => ?_, rfl⟩
  rw [MyTimerIsr_cached, hmod, Nat.mod_eq_of_lt hs]

/-- Witness for C1: in the short session 100 + 28 bytes are counted and the 50 bytes
flagged as failed are not. -/
theorem timerRead_eq_successBytes_mod_witness :
    JustReset State.init ∧ (∀ x ∈ shortSession, x.isDisconnect = false) ∧
    successBytes shortSession = 128 ∧
    (MyTimerIsr (run State.init shortSession)).cachedTotalByteCounter =
      successBytes shortSession % 2 ^ 32 ∧
    (successBytes shortSession < 2 ^ 32 →
      (MyTimerIsr (run State.init shortSession)).cachedTotalByteCounter =
        successBytes shortSession) ∧
    (MyTimerIsr (run State.init shortSession)).state = run State.init shortSession :=
  ⟨Or.inl rfl, by decide, by decide,
    timerRead_eq_successBytes_mod State.init shortSession (Or.inl rfl) (by decide)⟩

/-! ## The accept response (C2) -/

/-- C2: in every state reached from the initial state, handling a connect indication
issues exactly one link primitive, the connect response for the channel id of the
indication, with result `CYBLE_L2CAP_CONNECTION_SUCCESSFUL` and the parameters
MTU 512, MPS 512, credit 1000, whatever MTU, MPS, credit and PSM the peer offers. -/
theorem connInd_response_local_parameters (steps : List Step) (getState : CYBLE_STATE_T)
    (cbfcRequest : CYBLE_L2CAP_CBFC_CONN_IND_PARAM_T) :
    (StackEventHandler getState (run State.init steps)
        (.CYBLE_EVT_L2CAP_CBFC_CONN_IND cbfcRequest)).2.filter Action.isLinkPrimitive =
      [.CyBle_L2capCbfcConnectRsp cbfcRequest.lCid .CYBLE_L2CAP_CONNECTION_SUCCESSFUL
        ⟨512, 512, 1000⟩] := by
  have h := run_cbfcLocalParameters State.init steps
  simp only [StackEventHandler, List.filter, Action.isLinkPrimitive, h]
  rfl

/-! ## The credit grant (C3) -/

/-- No transition other than a connect indication writes `l2capCid`. -/
theorem step_l2capCid (s : State) (x : Step) (hx : x.isConnInd = false) :
    (step s x).l2capCid = s.l2capCid := by
  cases x with
  | stack g e =>
    cases e with
    | CYBLE_EVT_L2CAP_CBFC_CONN_IND req => simp [Step.isConnInd] at hx
    | _ =>
      first
        | rfl
        | (simp only [step, StackEventHandler, StartScan]; split_ifs <;> rfl)
  | timer => rfl
  | mainStopScan => rfl
  | mainStartScan => rfl

theorem run_l2capCid (s : State) (steps : List Step)
    (hnc : ∀ x ∈ steps, x.isConnInd = false) : (run s steps).l2capCid = s.l2capCid := by
  induction steps generalizing s with
  | nil => rfl
  | cons x xs ih =>
    rw [run_cons, ih _ (fun y hy => hnc y (List.mem_cons_of_mem _ hy)),
      step_l2capCid s x (hnc x (List.mem_cons_self _ _))]

/-- C3: in every state, handling an RX-credit indication issues exactly one call, the
flow-control credit grant for the cached `l2capCid` with amount 1000
(`PEER_DEVICE_TX_CREDITS`), and leaves every global unchanged; and the cached channel id
is the `lCid` of the most recent connect indication, whatever transitions other than a
connect indication were handled after it. -/
theorem creditInd_single_grant (getState getState0 : CYBLE_STATE_T) (s0 : State)
    (cbfcRequest : CYBLE_L2CAP_CBFC_CONN_IND_PARAM_T) (steps : List Step)
    (hnc : ∀ x ∈ steps, x.isConnInd = false) :
    (∀ s : State,
      StackEventHandler getState s .CYBLE_EVT_L2CAP_CBFC_RX_CREDIT_IND =
        (s, [.CyBle_L2capCbfcSendFlowControlCredit s.l2capCid 1000])) ∧
    StackEventHandler getState
        (run (StackEventHandler getState0 s0 (.CYBLE_EVT_L2CAP_CBFC_CONN_IND cbfcRequest)).1
          steps)
        .CYBLE_EVT_L2CAP_CBFC_RX_CREDIT_IND =
      (run (StackEventHandler getState0 s0 (.CYBLE_EVT_L2CAP_CBFC_CONN_IND cbfcRequest)).1
          steps,
       [.CyBle_L2capCbfcSendFlowControlCredit cbfcRequest.lCid 1000]) := by
  refine ⟨fun s => rfl, ?_⟩
  have h := run_l2capCid
    (StackEventHandler getState0 s0 (.CYBLE_EVT_L2CAP_CBFC_CONN_IND cbfcRequest)).1 steps hnc
  simp only [StackEventHandler] at h ⊢
  rw [h]
  rfl

/-- Witness for C3: after a connect indication for channel 64 and two data reads, the
credit indication is answered with one grant of 1000 credits for channel 64. -/
theorem creditInd_single_grant_witness :
    (∀ x ∈ [fullRead, fullRead], x.isConnInd = false) ∧
    StackEventHandler .CYBLE_STATE_CONNECTED
        (run (StackEventHandler .CYBLE_STATE_CONNECTED State.init
          (.CYBLE_EVT_L2CAP_CBFC_CONN_IND peerRequest)).1 [fullRead, fullRead])
        .CYBLE_EVT_L2CAP_CBFC_RX_CREDIT_IND =
      (run (StackEventHandler .CYBLE_STATE_CONNECTED State.init
          (.CYBLE_EVT_L2CAP_CBFC_CONN_IND peerRequest)).1 [fullRead, fullRead],
       [.CyBle_L2capCbfcSendFlowControlCredit 64 1000]) :=
  ⟨by decide,
    (creditInd_single_grant .CYBLE_STATE_CONNECTED .CYBLE_STATE_CONNECTED State.init
      peerRequest [fullRead, fullRead] (by decide)).2⟩

/-! ## The throughput computation (C4, C5) -/

/-- C4, as stated, fails: for the counter value 1280 `MyTimerIsr` computes
`(1280 >> 7) / 10 = 1`, while the formula of the specification evaluated left to right
gives `1280 / 1024 * 8 / 10 = 0`. -/
theorem throughput_spec_formula_counterexample :
    (1280 : Nat) < 2 ^ 32 ∧
    (MyTimerIsr { State.init with totalByteCounter := 1280 }).throughput = 1 ∧
    specRateKbps 1280 10 = 0 ∧
    (MyTimerIsr { State.init with totalByteCounter := 1280 }).throughput ≠
      specRateKbps 1280 10 := by
  decide

/-- C4 (amended): for every counter value `c` the throughput `MyTimerIsr` computes is
`floor(floor(c / 128) / 10) = floor(c / 1280)` (the division by 1024 and the
multiplication by 8 are one right shift by 7); it is never below the left-to-right
formula `floor(floor(c / 1024) * 8 / 10)`, exceeds it by at most 1, and equals it
whenever `c mod 1024 < 128`. -/
theorem throughput_eq_div_1280 (s : State) :
    (MyTimerIsr s).throughput = s.totalByteCounter / 128 / 10 ∧
    (MyTimerIsr s).throughput = s.totalByteCounter / 1280 ∧
    specRateKbps s.totalByteCounter 10 ≤ (MyTimerIsr s).throughput ∧
    (MyTimerIsr s).throughput ≤ specRateKbps s.totalByteCounter 10 + 1 ∧
    (s.totalByteCounter % 1024 < 128 →
      (MyTimerIsr s).throughput = specRateKbps s.totalByteCounter 10) := by
  rw [MyTimerIsr_throughput, Nat.shiftRight_eq_div_pow]
  simp only [specRateKbps]
  norm_num
  omega

/-- Witness for C4: at the counter value 2048 (`2048 mod 1024 = 0`) both formulas give 1. -/
theorem throughput_eq_div_1280_witness :
    (MyTimerIsr { State.init with totalByteCounter := 2048 }).throughput = 1 ∧
    specRateKbps 2048 10 = 1 ∧
    (MyTimerIsr { State.init with totalByteCounter := 2048 }).throughput =
      specRateKbps 2048 10 :=
  ⟨by decide, by decide,
    (throughput_eq_div_1280 { State.init with totalByteCounter := 2048 }).2.2.2.2
      (by decide)⟩

/-- C5: with `totalByteCounter = 128000` the throughput `MyTimerIsr` computes and prints
is 100, and with `totalByteCounter = 0` it is 0. -/
theorem throughput_worked_examples :
    (MyTimerIsr { State.init with totalByteCounter := 128000 }).throughput = 100 ∧
    (MyTimerIsr { State.init with totalByteCounter := 0 }).throughput = 0 ∧
    (MyTimerIsr { State.init with totalByteCounter := 128000 }).actions =
      [.UART_UartPutString "\n\rThroughput is: ",
       .UART_UartPutChar (.HexToDecimal 100 2),
       .UART_UartPutChar (.HexToDecimal 100 1),
       .UART_UartPutChar (.HexToDecimal 100 0),
       .UART_UartPutString " kbps.",
       .Timer_ClearInterrupt_TC] ∧
    (MyTimerIsr State.init).actions =
      [.UART_UartPutString "\n\rThroughput is: ",
       .UART_UartPutChar (.HexToDecimal 0 2),
       .UART_UartPutChar (.HexToDecimal 0 1),
       .UART_UartPutChar (.HexToDecimal 0 0),
       .UART_UartPutString " kbps.",
       .Timer_ClearInterrupt_TC] := by
  refine ⟨by decide, by decide, ?_, ?_⟩ <;> rfl

/-! ## Data reads flagged as failed (C6) -/

/-- C6: in every state, a data-read event whose result is not
`CYBLE_L2CAP_RESULT_SUCCESS` leaves every global (the byte counter included) unchanged
and issues no call at all, whatever its `rxDataLength`. -/
theorem dataRead_failure_ignored (getState : CYBLE_STATE_T) (s : State)
    (cbfcRxParameter : CYBLE_L2CAP_CBFC_RX_PARAM_T)
    (hres : cbfcRxParameter.result ≠ .CYBLE_L2CAP_RESULT_SUCCESS) :
    StackEventHandler getState s (.CYBLE_EVT_L2CAP_CBFC_DATA_READ cbfcRxParameter) = (s, []) := by
  simp only [StackEventHandler, if_neg hres]

/-- Witness for C6: 50 bytes flagged with a failure code, after the short session. -/
theorem dataRead_failure_ignored_witness :
    (⟨.otherResult 1, 50⟩ : CYBLE_L2CAP_CBFC_RX_PARAM_T).result ≠ .CYBLE_L2CAP_RESULT_SUCCESS ∧
    StackEventHandler .CYBLE_STATE_CONNECTED (run State.init shortSession)
        (.CYBLE_EVT_L2CAP_CBFC_DATA_READ ⟨.otherResult 1, 50⟩) =
      (run State.init shortSession, []) :=
  ⟨by decide,
    dataRead_failure_ignored .CYBLE_STATE_CONNECTED (run State.init shortSession)
      ⟨.otherResult 1, 50⟩ (by decide)⟩

/-! ## The connect indication and the byte counter (C7) -/

/-- While no bytes are counted, a counter that is zero stays zero. -/
theorem step_totalByteCounter_zero (s : State) (x : Step) (hs : s.totalByteCounter = 0)
    (hx : x.successBytes = 0) : (step s x).totalByteCounter = 0 := by
  cases x with
  | stack g e =>
    cases e with
    | CYBLE_EVT_L2CAP_CBFC_DATA_READ rx =>
      obtain ⟨res, n⟩ := rx
      cases res with
      | CYBLE_L2CAP_RESULT_SUCCESS =>
        have hn : n = 0 := hx
        simp [step, StackEventHandler, hs, hn]
      | otherResult c => simpa [step, StackEventHandler] using hs
    | _ =>
      first
        | exact hs
        | rfl
        | (simp only [step, StackEventHandler, StartScan]; split_ifs <;> exact hs)
  | timer => exact hs
  | mainStopScan => exact hs
  | mainStartScan => exact hs

theorem run_totalByteCounter_zero (s : State) (steps : List Step)
    (hs : s.totalByteCounter = 0) (hx : ∀ x ∈ steps, x.successBytes = 0) :
    (run s steps).totalByteCounter = 0 := by
  induction steps generalizing s with
  | nil => exact hs
  | cons x xs ih =>
    rw [run_cons]
    exact ih _ (step_totalByteCounter_zero s x hs (hx x (List.mem_cons_self _ _)))
      (fun y hy => hx y (List.mem_cons_of_mem _ hy))

/-- C7, as stated, fails: from the initial state, after a connect indication and one
successful data read of 512 bytes, handling a second connect indication (the peer
opens the channel again without a link disconnect) leaves `totalByteCounter = 512`. -/
theorem connInd_counter_zero_counterexample :
    (StackEventHandler .CYBLE_STATE_CONNECTED
        (run State.init
          [.stack .CYBLE_STATE_CONNECTED (.CYBLE_EVT_L2CAP_CBFC_CONN_IND peerRequest), fullRead])
        (.CYBLE_EVT_L2CAP_CBFC_CONN_IND peerRequest)).1.totalByteCounter = 512 ∧
    (StackEventHandler .CYBLE_STATE_CONNECTED
        (run State.init
          [.stack .CYBLE_STATE_CONNECTED (.CYBLE_EVT_L2CAP_CBFC_CONN_IND peerRequest), fullRead])
        (.CYBLE_EVT_L2CAP_CBFC_CONN_IND peerRequest)).1.totalByteCounter ≠ 0 := by
  decide

/-- C7 (amended): in every state, handling a connect indication issues, in this order,
the accept (`CyBle_L2capCbfcConnectRsp` for the channel id of the indication, with
result `CYBLE_L2CAP_CONNECTION_SUCCESSFUL` and `cbfcLocalParameters`), two UART
messages, and last `Timer_Enable`: the sampler timer is enabled exactly once, after the
accept is sent. It writes only `cbfcPeerParameters`, `l2capCid` and `peerDevicePsm`, so
`totalByteCounter` is left as it was (the handler resets the counter on disconnect, not
on connect); the counter is therefore zero after the indication whenever no bytes have
been counted since the last reset, that is, since program start or the last
device-disconnected event. -/
theorem connInd_timer_enabled_counter_kept (getState : CYBLE_STATE_T) (s0 : State)
    (steps : List Step) (cbfcRequest : CYBLE_L2CAP_CBFC_CONN_IND_PARAM_T)
    (h0 : JustReset s0) (hx : ∀ x ∈ steps, x.successBytes = 0) :
    (∀ (g : CYBLE_STATE_T) (s : State) (req : CYBLE_L2CAP_CBFC_CONN_IND_PARAM_T),
      StackEventHandler g s (.CYBLE_EVT_L2CAP_CBFC_CONN_IND req) =
        ({ s with
            cbfcPeerParameters := ⟨req.connParam.mtu, req.connParam.mps, req.connParam.credit⟩,
            l2capCid := req.lCid,
            peerDevicePsm := req.psm },
         [.CyBle_L2capCbfcConnectRsp req.lCid .CYBLE_L2CAP_CONNECTION_SUCCESSFUL
            s.cbfcLocalParameters,
          .UART_UartPutString "\n\rL2CAP connection request received. Request accepted.",
          .UART_UartPutString "\n\rCalculating throughput. Please wait... ",
          .Timer_Enable]) ∧
      (StackEventHandler g s (.CYBLE_EVT_L2CAP_CBFC_CONN_IND req)).2.head? =
        some (.CyBle_L2capCbfcConnectRsp req.lCid .CYBLE_L2CAP_CONNECTION_SUCCESSFUL
          s.cbfcLocalParameters) ∧
      (StackEventHandler g s (.CYBLE_EVT_L2CAP_CBFC_CONN_IND req)).2.getLast? =
        some .Timer_Enable ∧
      (StackEventHandler g s (.CYBLE_EVT_L2CAP_CBFC_CONN_IND req)).2.count .Timer_Enable = 1 ∧
      (StackEventHandler g s (.CYBLE_EVT_L2CAP_CBFC_CONN_IND req)).1.totalByteCounter =
        s.totalByteCounter) ∧
    (StackEventHandler getState (run s0 steps)
      (.CYBLE_EVT_L2CAP_CBFC_CONN_IND cbfcRequest)).1.totalByteCounter = 0 := by
  refine ⟨fun g s req => ⟨rfl, rfl, rfl, by simp [StackEventHandler], rfl⟩, ?_⟩
  exact run_totalByteCounter_zero s0 steps (justReset_totalByteCounter s0 h0) hx

/-- Witness for C7: a first connect indication, after the stack came up and a device
connected, finds and leaves the counter at zero; the accept for channel 64 with
512/512/1000 is the first call and `Timer_Enable` the last. -/
theorem connInd_timer_enabled_counter_kept_witness :
    JustReset State.init ∧
    (∀ x ∈ [Step.stack .CYBLE_STATE_DISCONNECTED .CYBLE_EVT_STACK_ON,
            Step.stack .CYBLE_STATE_CONNECTED .CYBLE_EVT_GAP_DEVICE_CONNECTED],
      x.successBytes = 0) ∧
    (StackEventHandler .CYBLE_STATE_CONNECTED
      (run State.init
        [Step.stack .CYBLE_STATE_DISCONNECTED .CYBLE_EVT_STACK_ON,
         Step.stack .CYBLE_STATE_CONNECTED .CYBLE_EVT_GAP_DEVICE_CONNECTED])
      (.CYBLE_EVT_L2CAP_CBFC_CONN_IND peerRequest)).1.totalByteCounter = 0 ∧
    (StackEventHandler .CYBLE_STATE_CONNECTED
      (run State.init
        [Step.stack .CYBLE_STATE_DISCONNECTED .CYBLE_EVT_STACK_ON,
         Step.stack .CYBLE_STATE_CONNECTED .CYBLE_EVT_GAP_DEVICE_CONNECTED])
      (.CYBLE_EVT_L2CAP_CBFC_CONN_IND peerRequest)).2 =
      [.CyBle_L2capCbfcConnectRsp 64 .CYBLE_L2CAP_CONNECTION_SUCCESSFUL ⟨512, 512, 1000⟩,
       .UART_UartPutString "\n\rL2CAP connection request received. Request accepted.",
       .UART_UartPutString "\n\rCalculating throughput. Please wait... ",
       .Timer_Enable] :=
  ⟨Or.inl rfl, by decide,
    (connInd_timer_enabled_counter_kept .CYBLE_STATE_CONNECTED State.init
      [Step.stack .CYBLE_STATE_DISCONNECTED .CYBLE_EVT_STACK_ON,
       Step.stack .CYBLE_STATE_CONNECTED .CYBLE_EVT_GAP_DEVICE_CONNECTED]
      peerRequest (Or.inl rfl) (by decide)).2,
    rfl⟩

/-! ## Disconnect (C8) -/

/-- C8: in every state, handling a device-disconnected event sets `totalByteCounter`
to 0, and handling a second one right after it yields the same globals (byte counter,
peripheral list and session variables) as the first: the second is a no-op on state. -/
theorem disconnect_reset_idempotent (getState1 getState2 : CYBLE_STATE_T) (s : State) :
    (StackEventHandler getState1 s .CYBLE_EVT_GAP_DEVICE_DISCONNECTED).1.totalByteCounter = 0 ∧
    (StackEventHandler getState1 s .CYBLE_EVT_GAP_DEVICE_DISCONNECTED).1.peripherals.count = 0 ∧
    (StackEventHandler getState2
        (StackEventHandler getState1 s .CYBLE_EVT_GAP_DEVICE_DISCONNECTED).1
        .CYBLE_EVT_GAP_DEVICE_DISCONNECTED).1 =
      (StackEventHandler getState1 s .CYBLE_EVT_GAP_DEVICE_DISCONNECTED).1 :=
  ⟨rfl, rfl, rfl⟩

/-! ## Channel events while no channel is open (C9) -/

/-- C9, as stated, fails: in the initial state, where no connect indication has been
handled, a successful data read of 512 bytes changes `totalByteCounter` from 0 to 512,
and a credit indication is answered with a grant of 1000 credits for channel id 0. -/
theorem noChannel_noop_counterexample :
    (∀ x ∈ ([] : List Step), x.isConnInd = false) ∧
    (step (run State.init []) fullRead).totalByteCounter = 512 ∧
    (step (run State.init []) fullRead).totalByteCounter ≠
      (run State.init []).totalByteCounter ∧
    (StackEventHandler .CYBLE_STATE_SCANNING (run State.init [])
      .CYBLE_EVT_L2CAP_CBFC_RX_CREDIT_IND).2 =
      [.CyBle_L2capCbfcSendFlowControlCredit 0 1000] := by
  decide

/-- C9 (amended): the handler keeps no channel state and applies no gate. From any state
(in particular program start or the state left by a device-disconnected event), after
any transitions that contain no connect indication, a data-read event flagged success
still adds its `rxDataLength` to `totalByteCounter` (modulo `2 ^ 32`), a data-read event
with another result is a no-op, and a credit indication still issues one grant of 1000
credits, for the channel id left in `l2capCid` (0 when no connect indication was ever
handled). -/
theorem noChannel_events_still_handled (s0 : State) (steps : List Step)
    (hnc : ∀ x ∈ steps, x.isConnInd = false) :
    (∀ (g : CYBLE_STATE_T) (n : Nat),
      StackEventHandler g (run s0 steps)
          (.CYBLE_EVT_L2CAP_CBFC_DATA_READ ⟨.CYBLE_L2CAP_RESULT_SUCCESS, n⟩) =
        ({ run s0 steps with
            totalByteCounter := ((run s0 steps).totalByteCounter + n) % 2 ^ 32 }, [])) ∧
    (∀ (g : CYBLE_STATE_T) (rx : CYBLE_L2CAP_CBFC_RX_PARAM_T),
      rx.result ≠ .CYBLE_L2CAP_RESULT_SUCCESS →
        StackEventHandler g (run s0 steps) (.CYBLE_EVT_L2CAP_CBFC_DATA_READ rx) =
          (run s0 steps, [])) ∧
    (∀ g : CYBLE_STATE_T,
      StackEventHandler g (run s0 steps) .CYBLE_EVT_L2CAP_CBFC_RX_CREDIT_IND =
        (run s0 steps, [.CyBle_L2capCbfcSendFlowControlCredit s0.l2capCid 1000])) ∧
    (s0 = State.init → (run s0 steps).l2capCid = 0) := by
  have hcid := run_l2capCid s0 steps hnc
  refine ⟨fun g n => rfl, fun g rx hres => ?_, fun g => ?_, fun hi => ?_⟩
  · simp only [StackEventHandler, if_neg hres]
  · simp only [StackEventHandler, hcid]
    rfl
  · rw [hcid, hi]
    rfl

/-- Witness for C9: after the stack came up and a device connected, with no connect
indication handled, 512 bytes flagged success are counted and a credit indication is
answered for channel id 0. -/
theorem noChannel_events_still_handled_witness :
    JustReset State.init ∧
    (∀ x ∈ [Step.stack .CYBLE_STATE_DISCONNECTED .CYBLE_EVT_STACK_ON,
            Step.stack .CYBLE_STATE_CONNECTED .CYBLE_EVT_GAP_DEVICE_CONNECTED],
      x.isConnInd = false) ∧
    StackEventHandler .CYBLE_STATE_CONNECTED
        (run State.init
          [Step.stack .CYBLE_STATE_DISCONNECTED .CYBLE_EVT_STACK_ON,
           Step.stack .CYBLE_STATE_CONNECTED .CYBLE_EVT_GAP_DEVICE_CONNECTED])
        .CYBLE_EVT_L2CAP_CBFC_RX_CREDIT_IND =
      (run State.init
          [Step.stack .CYBLE_STATE_DISCONNECTED .CYBLE_EVT_STACK_ON,
           Step.stack .CYBLE_STATE_CONNECTED .CYBLE_EVT_GAP_DEVICE_CONNECTED],
       [.CyBle_L2capCbfcSendFlowControlCredit State.init.l2capCid 1000]) :=
  ⟨Or.inl rfl, by decide,
    (noChannel_events_still_handled State.init
      [Step.stack .CYBLE_STATE_DISCONNECTED .CYBLE_EVT_STACK_ON,
       Step.stack .CYBLE_STATE_CONNECTED .CYBLE_EVT_GAP_DEVICE_CONNECTED]
      (by decide)).2.2.1 .CYBLE_STATE_CONNECTED⟩

/-! ## The bounded peripheral list (C10) -/

/-- C10: in every state reached from the initial state (`peripherals.count = 0`),
`peripherals.count ≤ 10` and the array has its 10 entries. A scan-progress report that
is not a scan response and arrives while `count < 10` increments `count` and stores the
peer address at index `count - 1 < 10` (the entry then reads back the stored address);
every other scan-progress report changes no global and issues no call. A connect
selection accepted by the check `command < peripherals.count` of `main` is an index
below `count`, hence below 10. -/
theorem peripherals_count_le_ten (steps : List Step) :
    (run State.init steps).peripherals.count ≤ 10 ∧
    (run State.init steps).peripherals.peripheralDetail.length = 10 ∧
    (∀ (g : CYBLE_STATE_T) (advReport : CYBLE_GAPC_ADV_REPORT_T),
      advReport.eventType ≠ .CYBLE_GAPC_SCAN_RSP →
      (run State.init steps).peripherals.count < 10 →
        (StackEventHandler g (run State.init steps)
            (.CYBLE_EVT_GAPC_SCAN_PROGRESS_RESULT advReport)).1.peripherals.count =
          (run State.init steps).peripherals.count + 1 ∧
        (StackEventHandler g (run State.init steps)
            (.CYBLE_EVT_GAPC_SCAN_PROGRESS_RESULT advReport)).1.peripherals.count - 1 < 10 ∧
        (StackEventHandler g (run State.init steps)
            (.CYBLE_EVT_GAPC_SCAN_PROGRESS_RESULT advReport)).1.peripherals.peripheralDetail =
          (run State.init steps).peripherals.peripheralDetail.set
            (run State.init steps).peripherals.count
            ⟨advReport.peerBdAddr.take 6, advReport.peerAddrType⟩ ∧
        (StackEventHandler g (run State.init steps)
            (.CYBLE_EVT_GAPC_SCAN_PROGRESS_RESULT advReport)).1.peripherals.peripheralDetail[
              (run State.init steps).peripherals.count]? =
          some ⟨advReport.peerBdAddr.take 6, advReport.peerAddrType⟩) ∧
    (∀ (g : CYBLE_STATE_T) (advReport : CYBLE_GAPC_ADV_REPORT_T),
      (advReport.eventType = .CYBLE_GAPC_SCAN_RSP ∨
          10 ≤ (run State.init steps).peripherals.count) →
        StackEventHandler g (run State.init steps)
            (.CYBLE_EVT_GAPC_SCAN_PROGRESS_RESULT advReport) =
          (run State.init steps, [])) ∧
    (∀ command i : Nat, main_connectSelection (run State.init steps) command = some i →
      i < (run State.init steps).peripherals.count ∧ i < 10) := by
  obtain ⟨hc, hl⟩ := run_peripherals State.init steps ⟨by decide, by decide⟩
  refine ⟨hc, hl, ?_, ?_, ?_⟩
  · intro g advReport hadv hlt
    have hmod : ((run State.init steps).peripherals.count + 1) % 256 =
        (run State.init steps).peripherals.count + 1 := Nat.mod_eq_of_lt (by omega)
    simp only [StackEventHandler, if_pos hlt, hmod, Nat.add_sub_cancel]
    simp only [ne_eq, hadv, not_false_eq_true, if_true]
    refine ⟨trivial, hlt, trivial, ?_⟩
    rw [List.getElem?_set_self]
    rw [hl]
    exact hlt
  · intro g advReport h
    rcases h with h | h
    · simp [StackEventHandler, h]
    · simp [StackEventHandler, Nat.not_lt.mpr h]
  · intro command i hsel
    simp only [main_connectSelection] at hsel
    split_ifs at hsel with h1 h2
    have hi : (command - 48) % 256 = i := Option.some.inj hsel
    subst hi
    exact ⟨h2, by omega⟩

/-- Witness for C10: after ten advertisement reports the list is full (`count = 10`),
an eleventh report is ignored, and the digit '9' (code 57) selects index 9. -/
theorem peripherals_count_le_ten_witness :
    (run State.init tenReports).peripherals.count = 10 ∧
    StackEventHandler .CYBLE_STATE_SCANNING (run State.init tenReports)
        (.CYBLE_EVT_GAPC_SCAN_PROGRESS_RESULT sampleReport) =
      (run State.init tenReports, []) ∧
    main_connectSelection (run State.init tenReports) 57 = some 9 ∧
    (9 < (run State.init tenReports).peripherals.count ∧ 9 < 10) :=
  ⟨by decide,
    (peripherals_count_le_ten tenReports).2.2.2.1 .CYBLE_STATE_SCANNING sampleReport
      (Or.inr (by decide)),
    by decide,
    (peripherals_count_le_ten tenReports).2.2.2.2 57 9 (by decide)⟩

end Throughput
